import Mathlib

/-!
Shallow embedding of the Warbler application (`src/app.py`) for verification.

The embedding models the relational state (users, messages, follows, likes)
as lists of records, and each Flask view function of `app.py` as a pure
function from the request context (database snapshot, resolved current user,
CSRF-validation outcome, route parameters) to an `Except`-wrapped result:
a new database snapshot, the flashed messages, and the response
(render or redirect).  A Python exception that the handler does not catch
(`AttributeError`, `ValueError`, SQLAlchemy errors, an aborting 404) is an
`Except.error`.

The ORM models live in `models.py`, which is not part of the sources here;
the pieces of it that the handlers rely on (the `Follows`/`Like` table
shapes, the `following`/`liked_messages` relationships, `User.signup`,
`User.authenticate`) are modelled from the specification and from the
repository's own tests, and are marked `Modelled from the spec:` below.
-/

namespace Warbler

/-- Row of the `users` table (spec section 3: unique id, unique username,
unique email, hashed password, profile fields). The `password` field stores
the hash, never the plaintext. -/
structure UserRec where
  id : Nat
  username : String
  email : String
  password : String
  image_url : String
  header_image_url : String
  bio : String
  location : String
deriving Repr, DecidableEq

/-- Row of the `messages` table (spec section 3: id, owning user id, text,
server-assigned creation timestamp). Timestamps are modelled as naturals. -/
structure MessageRec where
  id : Nat
  text : String
  timestamp : Nat
  user_id : Nat
deriving Repr, DecidableEq

/-- Modelled from the spec: row of the `follows` table. The column names
`user_being_followed_id` / `user_following_id` are the ones the repository's
tests construct (`Follows(user_being_followed_id=u2.id, user_following_id=u1.id)`
makes `u1.is_following(u2)` true); the table itself is declared in the absent
`models.py`. -/
structure FollowEdge where
  user_being_followed_id : Nat
  user_following_id : Nat
deriving Repr, DecidableEq

/-- Modelled from the spec: row of the `likes` table, composite key
(user id, message id), directed from liker to message (spec section 3);
the column names are the ones used by `seed.py` and the tests. -/
structure LikeEdge where
  user_id : Nat
  message_id : Nat
deriving Repr, DecidableEq

/-- The relational store: the four tables of the schema (spec section 6). -/
structure DB where
  users : List UserRec
  messages : List MessageRec
  follows : List FollowEdge
  likes : List LikeEdge
deriving Repr, DecidableEq

/-- One flashed message: text and category, as produced by `flash(msg, cat)`. -/
structure Flash where
  message : String
  category : String
deriving Repr, DecidableEq

/-- The response a handler produces: a rendered template or a redirect. -/
inductive Resp where
  | render (template : String)
  | redirect (location : String)
deriving Repr, DecidableEq

/-- Result of a handler run that did not raise: the database snapshot after
the request, the flashed messages, and the response. -/
structure HResult where
  db : DB
  flashes : List Flash
  resp : Resp
deriving Repr, DecidableEq

/-- An exception escaping a handler (surfaces as a server error / 404 abort). -/
inductive PyExc where
  | attributeError (msg : String)
  | valueError (msg : String)
  | notFound404
  | unmappedInstanceError
deriving Repr, DecidableEq

deriving instance DecidableEq for Except

/-- Outcome of one handler run: a result, or an uncaught exception. -/
abbrev HOut := Except PyExc HResult

/-- Recognizer for an uncaught `ValueError` outcome. -/
def isValueError : HOut → Bool
  | .error (.valueError _) => true
  | _ => false

/-- Modelled from the spec: ids of the users that user `uid` follows, i.e.
the ORM relationship `user.following` of the absent `models.py`, read off the
`follows` table: every `user_being_followed_id` of an edge whose
`user_following_id` is `uid`. -/
def followingIds (db : DB) (uid : Nat) : List Nat :=
  (db.follows.filter (fun f => f.user_following_id == uid)).map
    (fun f => f.user_being_followed_id)

/-- Modelled from the spec: ids of the messages user `uid` has liked, i.e. the
ORM relationship `user.liked_messages` of the absent `models.py`, read off the
`likes` table. -/
def likedMessageIds (db : DB) (uid : Nat) : List Nat :=
  (db.likes.filter (fun l => l.user_id == uid)).map (fun l => l.message_id)

/-- Whether some user row already uses this username (the DB-level uniqueness
constraint on `users.username`). -/
def usernameTaken (db : DB) (un : String) : Bool :=
  db.users.any (fun u => u.username == un)

/-- Whether some user row already uses this email (the DB-level uniqueness
constraint on `users.email`). -/
def emailTaken (db : DB) (em : String) : Bool :=
  db.users.any (fun u => u.email == em)

/-- Modelled from the spec: the one-way password hash used by `User.signup` /
`User.authenticate` of the absent `models.py` (bcrypt in the real code,
abstracted here as an injective tagging of the plaintext; the claims under
verification depend only on hash-comparison, never on the hash's internals). -/
def hashPw (pw : String) : String := "$2b$12$" ++ pw

/-- Modelled from the spec: default profile image applied when the signup form
leaves `image_url` empty (`form.image_url.data or User.image_url.default.arg`
in `app.py`; the default's value appears in the repository's tests). -/
def defaultImageUrl : String := "/static/images/default-pic.png"

/-- Modelled from the spec: `User.authenticate(username, password)` of the
absent `models.py`, per spec section 4.1: look the user up by username; if
found, verify the password against the stored hash; return the user on match
and otherwise one single failure sentinel (`none`, the falsy outcome) — the
same sentinel whether the username was not found or the password mismatched. -/
def authenticate (db : DB) (username password : String) : Option UserRec :=
  match db.users.find? (fun u => u.username == username) with
  | some u => if u.password == hashPw password then some u else none
  | none => none

/-- The `before_request` hook `add_user_to_g` of `app.py`: if the session
holds a current-user id, `g.user` is `User.query.get` of it (which can still
be `none` if the row is gone); otherwise `g.user` is `none`. -/
def add_user_to_g (db : DB) (sess : Option Nat) : Option UserRec :=
  match sess with
  | some uid => db.users.find? (fun u => u.id == uid)
  | none => none

/-- The common unauthorized outcome of `app.py`'s route guards:
flash `Access unauthorized.` (category `danger`) and redirect to `/`,
with the database untouched. -/
def unauthorizedResult (db : DB) : HResult :=
  ⟨db, [⟨"Access unauthorized.", "danger"⟩], .redirect "/"⟩

/-- Data of the signup form (`UserAddForm`). -/
structure SignupForm where
  username : String
  password : String
  email : String
  image_url : String
deriving Repr, DecidableEq

/-- The `/signup` handler of `app.py`. `User.signup` (absent `models.py`,
modelled from spec section 4.1) stages a new row with the hashed password; the
`IntegrityError` that a duplicate username or email raises at
`db.session.commit()` is caught by the handler, which flashes
`Username already taken`, rolls the transaction back (so the staged row is
discarded and the store is exactly as before) and re-renders the signup form.
`new_id` stands for the id the database would assign the new row. -/
def signup (db : DB) (form_valid : Bool) (f : SignupForm) (new_id : Nat) : HOut :=
  if form_valid then
    if usernameTaken db f.username || emailTaken db f.email then
      .ok ⟨db, [⟨"Username already taken", "danger"⟩], .render "users/signup.html"⟩
    else
      .ok ⟨{ db with users := db.users ++
              [⟨new_id, f.username, f.email, hashPw f.password,
                (if f.image_url == "" then defaultImageUrl else f.image_url),
                "", "", ""⟩] },
           [], .redirect "/"⟩
  else
    .ok ⟨db, [], .render "users/signup.html"⟩

/-- The `/users/follow/<follow_id>` handler of `app.py`: guard on `g.user`,
then on CSRF; `User.query.get_or_404(follow_id)` aborts with 404 when the
target row is absent; otherwise `g.user.following.append(followed_user)` adds
the follow edge and the handler redirects to the referrer. There is no check
that `follow_id` differs from the current user's id. -/
def add_follow (db : DB) (guser : Option UserRec) (csrf_valid : Bool)
    (referrer : String) (follow_id : Nat) : HOut :=
  match guser with
  | none => .ok (unauthorizedResult db)
  | some u =>
    if csrf_valid then
      match db.users.find? (fun x => x.id == follow_id) with
      | none => .error .notFound404
      | some fu =>
        .ok ⟨{ db with follows := db.follows ++ [⟨fu.id, u.id⟩] },
             [], .redirect referrer⟩
    else .ok (unauthorizedResult db)

/-- The `/users/stop-following/<follow_id>` handler of `app.py`: guard on
`g.user`, then on CSRF; `User.query.get(follow_id)` yields the row or `None`;
`g.user.following.remove(followed_user)` raises `ValueError` when the argument
is not in the list — which happens both when the row was `None` and when no
follow edge from the current user to it exists. On success the edge is removed
and the handler redirects to the referrer. -/
def stop_following (db : DB) (guser : Option UserRec) (csrf_valid : Bool)
    (referrer : String) (follow_id : Nat) : HOut :=
  match guser with
  | none => .ok (unauthorizedResult db)
  | some u =>
    if csrf_valid then
      match db.users.find? (fun x => x.id == follow_id) with
      | none => .error (.valueError "list.remove(x): x not in list")
      | some fu =>
        if (followingIds db u.id).contains fu.id then
          .ok ⟨{ db with follows := db.follows.filter fun e =>
                  !(e.user_following_id == u.id &&
                    e.user_being_followed_id == fu.id) },
               [], .redirect referrer⟩
        else .error (.valueError "list.remove(x): x not in list")
    else .ok (unauthorizedResult db)

/-- Data of the profile-edit form (`EditProfileForm`). -/
structure EditProfileForm where
  username : String
  email : String
  image_url : String
  header_image_url : String
  bio : String
  password : String
deriving Repr, DecidableEq

/-- The field update the `/users/profile` handler applies to the
re-authenticated user's row: exactly username, email, image_url,
header_image_url and bio are assigned from the form; every other field of the
row, and every row with a different id, is left as it was. -/
def profileUpdate (f : EditProfileForm) (auId : Nat) (x : UserRec) : UserRec :=
  if x.id == auId then
    { x with username := f.username, email := f.email, image_url := f.image_url,
             header_image_url := f.header_image_url, bio := f.bio }
  else x

/-- The `/users/profile` handler of `app.py`: guard on `g.user`; on a valid
form submission, re-authenticate with the submitted password; on success
assign the five profile fields on the authenticated row, commit, and redirect
to the current user's page; on authentication failure flash `Unauthorized.`
and redirect to `/`; on a plain GET render the edit form. -/
def profile (db : DB) (guser : Option UserRec) (form_valid : Bool)
    (f : EditProfileForm) : HOut :=
  match guser with
  | none => .ok (unauthorizedResult db)
  | some u =>
    if form_valid then
      match authenticate db u.username f.password with
      | some au =>
        .ok ⟨{ db with users := db.users.map (profileUpdate f au.id) },
             [], .redirect ("/users/" ++ toString u.id)⟩
      | none => .ok ⟨db, [⟨"Unauthorized.", "danger"⟩], .redirect "/"⟩
    else .ok ⟨db, [], .render "users/edit.html"⟩

/-- The `/users/delete` handler of `app.py`: guard on `g.user`, then on CSRF;
then log out, flash, delete the current user's row and commit (the cascade to
the user's messages, likes and follow edges is spec section 3's ownership
rule, declared in the absent `models.py`), and redirect to `/signup`. -/
def delete_user (db : DB) (guser : Option UserRec) (csrf_valid : Bool) : HOut :=
  match guser with
  | none => .ok (unauthorizedResult db)
  | some u =>
    if csrf_valid then
      .ok ⟨{ users := db.users.filter (fun x => !(x.id == u.id)),
             messages := db.messages.filter (fun m => !(m.user_id == u.id)),
             follows := db.follows.filter
               (fun e => !(e.user_following_id == u.id) &&
                         !(e.user_being_followed_id == u.id)),
             likes := db.likes.filter (fun l => !(l.user_id == u.id)) },
           [⟨"Successfully deleted!", ""⟩], .redirect "/signup"⟩
    else .ok (unauthorizedResult db)

/-- The `/messages/new` handler of `app.py`: guard on `g.user`; on a valid
form, append a message owned by the current user (with the server-assigned id
`new_mid` and timestamp `ts`) and redirect to the user's page; otherwise
render the form. -/
def messages_add (db : DB) (guser : Option UserRec) (form_valid : Bool)
    (text : String) (new_mid ts : Nat) : HOut :=
  match guser with
  | none => .ok (unauthorizedResult db)
  | some u =>
    if form_valid then
      .ok ⟨{ db with messages := db.messages ++ [⟨new_mid, text, ts, u.id⟩] },
           [], .redirect ("/users/" ++ toString u.id)⟩
    else .ok ⟨db, [], .render "messages/new.html"⟩

/-- The `/messages/<message_id>` handler of `app.py`: guard on `g.user`, then
render the message page (`Message.query.get` tolerates a missing row, so no
404 here; the fetched row only feeds the template, which the embedding does
not carry). -/
def messages_show (db : DB) (guser : Option UserRec) (message_id : Nat) : HOut :=
  match guser with
  | none => .ok (unauthorizedResult db)
  | some _ =>
    match db.messages.find? (fun m => m.id == message_id) with
    | _ => .ok ⟨db, [], .render "messages/show.html"⟩

/-- The `/messages/<message_id>/delete` handler of `app.py`: guard on
`g.user`, then on CSRF. The handler then evaluates
`Like.query.filter(Like.message_id == message_id).all()`; when that list is
nonempty it calls `.delete()` ON THE LIST, and a Python list has no `delete`
attribute, so the handler raises `AttributeError` before touching anything.
When the message has no likes, `Message.query.get` fetches the row
(`db.session.delete(None)` would raise if it is absent) and the row is
deleted and committed — with no check that the current user owns it. -/
def messages_destroy (db : DB) (guser : Option UserRec) (csrf_valid : Bool)
    (message_id : Nat) : HOut :=
  match guser with
  | none => .ok (unauthorizedResult db)
  | some u =>
    if csrf_valid then
      if (db.likes.filter (fun l => l.message_id == message_id)).isEmpty then
        match db.messages.find? (fun m => m.id == message_id) with
        | none => .error .unmappedInstanceError
        | some _ =>
          .ok ⟨{ db with messages := db.messages.filter fun m =>
                  !(m.id == message_id) },
               [], .redirect ("/users/" ++ toString u.id)⟩
      else .error (.attributeError "list object has no attribute delete")
    else .ok (unauthorizedResult db)

/-- The `/messages/<message_id>/like` handler of `app.py`: guard on `g.user`,
then on CSRF; `get_or_404` the message; if the owner of the message IS the
current user, flash the self-like warning and redirect back without any
change; otherwise append the like edge, commit, and redirect back. -/
def like_message (db : DB) (guser : Option UserRec) (csrf_valid : Bool)
    (referrer : String) (message_id : Nat) : HOut :=
  match guser with
  | none => .ok (unauthorizedResult db)
  | some u =>
    if csrf_valid then
      match db.messages.find? (fun m => m.id == message_id) with
      | none => .error .notFound404
      | some msg =>
        if msg.user_id == u.id then
          .ok ⟨db, [⟨"You can\u0027t like your own posts!", "danger"⟩],
               .redirect referrer⟩
        else
          .ok ⟨{ db with likes := db.likes ++ [⟨u.id, msg.id⟩] },
               [], .redirect referrer⟩
    else .ok (unauthorizedResult db)

/-- The `/messages/<message_id>/unlike` handler of `app.py`: guard on
`g.user`, then on CSRF; `get_or_404` the message; then
`g.user.liked_messages.remove(msg)` raises `ValueError` when the current user
has no like edge for it (no existence check); on success the edge is removed
and the handler redirects back. -/
def unlike_message (db : DB) (guser : Option UserRec) (csrf_valid : Bool)
    (referrer : String) (message_id : Nat) : HOut :=
  match guser with
  | none => .ok (unauthorizedResult db)
  | some u =>
    if csrf_valid then
      match db.messages.find? (fun m => m.id == message_id) with
      | none => .error .notFound404
      | some msg =>
        if (likedMessageIds db u.id).contains msg.id then
          .ok ⟨{ db with likes := db.likes.filter fun l =>
                  !(l.user_id == u.id && l.message_id == msg.id) },
               [], .redirect referrer⟩
        else .error (.valueError "list.remove(x): x not in list")
    else .ok (unauthorizedResult db)

/-- The `/users` handler of `app.py`: guard on `g.user`, then render the user
index (the optional username search only shapes the template context, which
the embedding does not carry; the database is untouched). -/
def list_users (db : DB) (guser : Option UserRec) : HOut :=
  match guser with
  | none => .ok (unauthorizedResult db)
  | some _ => .ok ⟨db, [], .render "users/index.html"⟩

/-- The `/users/<user_id>` handler of `app.py`: guard on `g.user`, then
`get_or_404` the user and render their page. -/
def users_show (db : DB) (guser : Option UserRec) (user_id : Nat) : HOut :=
  match guser with
  | none => .ok (unauthorizedResult db)
  | some _ =>
    match db.users.find? (fun x => x.id == user_id) with
    | none => .error .notFound404
    | some _ => .ok ⟨db, [], .render "users/show.html"⟩

/-- The `/users/<user_id>/following` handler of `app.py`: guard on `g.user`,
then `get_or_404` the user and render the list they follow. -/
def show_following (db : DB) (guser : Option UserRec) (user_id : Nat) : HOut :=
  match guser with
  | none => .ok (unauthorizedResult db)
  | some _ =>
    match db.users.find? (fun x => x.id == user_id) with
    | none => .error .notFound404
    | some _ => .ok ⟨db, [], .render "users/following.html"⟩

/-- The `/users/<user_id>/followers` handler of `app.py`: guard on `g.user`,
then `get_or_404` the user and render their followers. -/
def users_followers (db : DB) (guser : Option UserRec) (user_id : Nat) : HOut :=
  match guser with
  | none => .ok (unauthorizedResult db)
  | some _ =>
    match db.users.find? (fun x => x.id == user_id) with
    | none => .error .notFound404
    | some _ => .ok ⟨db, [], .render "users/followers.html"⟩

/-- The `/users/<user_id>/likes` handler of `app.py`: guard on `g.user`, then
`get_or_404` the user and render their liked messages. -/
def show_likes (db : DB) (guser : Option UserRec) (user_id : Nat) : HOut :=
  match guser with
  | none => .ok (unauthorizedResult db)
  | some _ =>
    match db.users.find? (fun x => x.id == user_id) with
    | none => .error .notFound404
    | some _ => .ok ⟨db, [], .render "likes.html"⟩

/-- The ordering the homepage query asks the database for:
`order_by(Message.timestamp.desc())`, i.e. `a` comes no later than `b` when
`b.timestamp ≤ a.timestamp`. -/
def tsDesc (a b : MessageRec) : Prop := b.timestamp ≤ a.timestamp

instance : DecidableRel tsDesc := fun a b => Nat.decLe b.timestamp a.timestamp

instance : IsTotal MessageRec tsDesc :=
  ⟨fun a b => Nat.le_total b.timestamp a.timestamp⟩

instance : IsTrans MessageRec tsDesc :=
  ⟨fun _ _ _ h1 h2 => Nat.le_trans h2 h1⟩

/-- The id list the homepage builds:
`[user.id for user in g.user.following] + [g.user.id]`. -/
def users_to_display (db : DB) (u : UserRec) : List Nat :=
  followingIds db u.id ++ [u.id]

/-- The homepage feed query of `app.py` for a logged-in user:
`Message.query.filter(Message.user_id.in_(users_to_display))
.order_by(Message.timestamp.desc()).limit(100).all()` — filter the messages
to the followed-or-self owners, sort by timestamp descending, keep at most
100 rows. -/
def homepage_messages (db : DB) (u : UserRec) : List MessageRec :=
  ((db.messages.filter
      (fun m => (users_to_display db u).contains m.user_id)).insertionSort
      tsDesc).take 100

/-- The `/` handler of `app.py`: a logged-in user gets the feed page (built
from `homepage_messages`); an anonymous session gets the static landing page
with no data access. -/
def homepage (db : DB) (guser : Option UserRec) : HOut :=
  match guser with
  | some _ => .ok ⟨db, [], .render "home.html"⟩
  | none => .ok ⟨db, [], .render "home-anon.html"⟩

/-- One state-mutating or data-revealing route of `app.py`, together with the
request data it consumes. These are exactly the routes whose handlers open
with the `if not g.user` guard (the spec's section-4.2 precondition); `/`,
`/signup`, `/login` and `/logout` are not among them. -/
inductive Route where
  | listUsersR
  | usersShowR (user_id : Nat)
  | showFollowingR (user_id : Nat)
  | usersFollowersR (user_id : Nat)
  | addFollowR (follow_id : Nat)
  | stopFollowingR (follow_id : Nat)
  | profileR (form_valid : Bool) (f : EditProfileForm)
  | deleteUserR
  | messagesAddR (form_valid : Bool) (text : String) (new_mid ts : Nat)
  | messagesShowR (message_id : Nat)
  | messagesDestroyR (message_id : Nat)
  | likeMessageR (message_id : Nat)
  | unlikeMessageR (message_id : Nat)
  | showLikesR (user_id : Nat)
deriving Repr, DecidableEq

/-- Dispatch of one request to the matching handler of `app.py`, after the
`add_user_to_g` hook has resolved `guser` and form validation has resolved
`csrf_valid`. -/
def handle (db : DB) (guser : Option UserRec) (csrf_valid : Bool)
    (referrer : String) : Route → HOut
  | .listUsersR => list_users db guser
  | .usersShowR uid => users_show db guser uid
  | .showFollowingR uid => show_following db guser uid
  | .usersFollowersR uid => users_followers db guser uid
  | .addFollowR fid => add_follow db guser csrf_valid referrer fid
  | .stopFollowingR fid => stop_following db guser csrf_valid referrer fid
  | .profileR fv f => profile db guser fv f
  | .deleteUserR => delete_user db guser csrf_valid
  | .messagesAddR fv t nm ts => messages_add db guser fv t nm ts
  | .messagesShowR mid => messages_show db guser mid
  | .messagesDestroyR mid => messages_destroy db guser csrf_valid mid
  | .likeMessageR mid => like_message db guser csrf_valid referrer mid
  | .unlikeMessageR mid => unlike_message db guser csrf_valid referrer mid
  | .showLikesR uid => show_likes db guser uid

/-! Concrete sample data, used by witnesses and counterexamples. -/

/-- Sample user with id 1. -/
def aliceU : UserRec := ⟨1, "alice", "a@x.com", hashPw "pw1", "img", "hdr", "bio", "loc"⟩

/-- Sample user with id 2. -/
def bobU : UserRec := ⟨2, "bob", "b@x.com", hashPw "pw2", "img", "hdr", "bio", "loc"⟩

/-- Sample message with id 10, owned by user 1. -/
def msgA : MessageRec := ⟨10, "hello", 5, 1⟩

/-- Sample store: two users, one message owned by user 1, liked by user 2. -/
def sampleDB : DB := ⟨[aliceU, bobU], [msgA], [], [⟨2, 10⟩]⟩

/-- Sample store: two users, one message owned by user 1, no likes. -/
def sampleNoLikesDB : DB := ⟨[aliceU, bobU], [msgA], [], []⟩

/-- C2: a signup attempt that reuses an existing username (or email) fails at
the uniqueness constraint, the transaction is rolled back, and the handler
re-renders the signup form with a flash instead of raising: the resulting
store is exactly the one before the request, so the pre-existing user row
(and every other row) is unchanged and no partial write survives. -/
theorem signup_duplicate_rolls_back (db : DB) (f : SignupForm) (new_id : Nat)
    (hdup : usernameTaken db f.username = true ∨ emailTaken db f.email = true) :
    signup db true f new_id =
      .ok ⟨db, [⟨"Username already taken", "danger"⟩],
           .render "users/signup.html"⟩ := by
  unfold signup
  rcases hdup with h | h <;> simp [h]

/-- Witness for C2: signing up with the already-taken username `alice`
re-renders the form over the unchanged sample store. -/
theorem signup_duplicate_rolls_back_witness :
    signup sampleDB true ⟨"alice", "z", "c@x.com", ""⟩ 3 =
      .ok ⟨sampleDB, [⟨"Username already taken", "danger"⟩],
           .render "users/signup.html"⟩ :=
  signup_duplicate_rolls_back sampleDB ⟨"alice", "z", "c@x.com", ""⟩ 3
    (Or.inl (by decide))

/-- C4: removing a follow (or like) edge that does not exist is not a no-op:
the unfollow and unlike handlers call `remove` on the relationship list with
no existence check, so a logged-in, CSRF-valid request to stop following a
user the current user does not follow, or to unlike an existing message the
current user has not liked, escapes as an uncaught `ValueError`. -/
theorem remove_nonexistent_edge_raises (db : DB) (u : UserRec)
    (referrer : String) (fid mid : Nat) (msg : MessageRec)
    (hnofollow : (followingIds db u.id).contains fid = false)
    (hmsg : db.messages.find? (fun m => m.id == mid) = some msg)
    (hnolike : (likedMessageIds db u.id).contains msg.id = false) :
    isValueError (stop_following db (some u) true referrer fid) = true ∧
    isValueError (unlike_message db (some u) true referrer mid) = true := by
  constructor
  · unfold stop_following
    cases hfu : db.users.find? (fun x => x.id == fid) with
    | none => simp [isValueError]
    | some fu =>
      have hid : fu.id = fid := by simpa using List.find?_some hfu
      have h2 : fu.id ∉ followingIds db u.id := by
        rw [hid]; simpa using hnofollow
      simp [h2, isValueError]
  · unfold unlike_message
    rw [hmsg]
    have h3 : msg.id ∉ likedMessageIds db u.id := by simpa using hnolike
    simp [h3, isValueError]

/-- Witness for C4: in the sample store user 1 follows nobody and has liked
nothing, so unfollowing user 2 and unliking message 10 both raise. -/
theorem remove_nonexistent_edge_raises_witness :
    isValueError (stop_following sampleDB (some aliceU) true "/r" 2) = true ∧
    isValueError (unlike_message sampleDB (some aliceU) true "/r" 10) = true :=
  remove_nonexistent_edge_raises sampleDB aliceU "/r" 2 10 msgA
    (by decide) (by decide) (by decide)

/-- C5: a logged-in, CSRF-valid request to like a message the current user
owns is rejected: the handler flashes the self-like warning and redirects
back, with the store exactly as before, so the like-edge count of the message
is unchanged. -/
theorem self_like_rejected (db : DB) (u : UserRec) (referrer : String)
    (mid : Nat) (msg : MessageRec)
    (hfind : db.messages.find? (fun m => m.id == mid) = some msg)
    (hown : msg.user_id = u.id) :
    like_message db (some u) true referrer mid =
      .ok ⟨db, [⟨"You can't like your own posts!", "danger"⟩],
           .redirect referrer⟩ := by
  unfold like_message
  rw [hfind]
  simp [hown]

/-- Witness for C5: user 1 attempting to like their own message 10 leaves the
sample store unchanged and flashes the warning. -/
theorem self_like_rejected_witness :
    like_message sampleDB (some aliceU) true "/r" 10 =
      .ok ⟨sampleDB, [⟨"You can't like your own posts!", "danger"⟩],
           .redirect "/r"⟩ :=
  self_like_rejected sampleDB aliceU "/r" 10 msgA (by decide) (by decide)

/-- C6: authentication with a wrong password for a stored user and
authentication with a username no row carries produce the same single failure
sentinel (`none`): a caller of `authenticate` cannot distinguish the
user-not-found failure from the bad-password failure. -/
theorem authenticate_failure_indistinguishable (db : DB)
    (un pw un2 pw2 : String) (s : UserRec)
    (hfound : db.users.find? (fun x => x.username == un) = some s)
    (hwrong : s.password ≠ hashPw pw)
    (hnouser : db.users.find? (fun x => x.username == un2) = none) :
    authenticate db un pw = none ∧ authenticate db un2 pw2 = none ∧
    authenticate db un pw = authenticate db un2 pw2 := by
  unfold authenticate
  rw [hfound, hnouser]
  simp [hwrong]

/-- Witness for C6: in the sample store, `alice` with a wrong password and the
absent username `nobody` both authenticate to `none`. -/
theorem authenticate_failure_indistinguishable_witness :
    authenticate sampleDB "alice" "wrong" = none ∧
    authenticate sampleDB "nobody" "pw" = none ∧
    authenticate sampleDB "alice" "wrong" = authenticate sampleDB "nobody" "pw" :=
  authenticate_failure_indistinguishable sampleDB "alice" "wrong" "nobody" "pw"
    aliceU (by decide) (by decide) (by decide)

/-- Store holding only user 1, for the self-follow runs. -/
def selfFollowDB : DB := ⟨[aliceU], [], [], []⟩

/-- Counterexample to C7 as stated: the follow route performs NO self-follow
check. User 1, logged in with a valid CSRF token, requesting to follow user 1
makes the handler append the follow edge (1, 1): the request DOES add a
self-follow edge. -/
theorem add_follow_self_counterexample :
    add_follow selfFollowDB (some aliceU) true "/r" 1 =
      .ok ⟨⟨[aliceU], [], [⟨1, 1⟩], []⟩, [], .redirect "/r"⟩ ∧
    FollowEdge.mk 1 1 ∈ (⟨[aliceU], [], [⟨1, 1⟩], []⟩ : DB).follows :=
  ⟨by decide, by decide⟩

/-- C7 amended: the follow route has no self-follow guard. For every store
containing the current user, a logged-in, CSRF-valid request by user `u` to
follow `u` appends the self-follow edge `(u.id, u.id)` and redirects back. -/
theorem add_follow_no_self_check (db : DB) (u : UserRec) (referrer : String)
    (hu : db.users.find? (fun x => x.id == u.id) = some u) :
    add_follow db (some u) true referrer u.id =
      .ok ⟨{ db with follows := db.follows ++ [⟨u.id, u.id⟩] },
           [], .redirect referrer⟩ := by
  unfold add_follow
  rw [hu]
  rfl

/-- Witness for the amended C7: user 1 following user 1 in the one-user
store adds the edge (1, 1). -/
theorem add_follow_no_self_check_witness :
    add_follow selfFollowDB (some aliceU) true "/r" aliceU.id =
      .ok ⟨{ selfFollowDB with follows := selfFollowDB.follows ++
              [⟨aliceU.id, aliceU.id⟩] },
           [], .redirect "/r"⟩ :=
  add_follow_no_self_check selfFollowDB aliceU "/r" (by decide)

/-- Counterexample to C9 as stated: the delete route performs NO ownership
check. User 2 (not the owner: message 10 belongs to user 1), logged in with a
valid CSRF token, requesting deletion of message 10 (which has no likes) DOES
remove the message. -/
theorem messages_destroy_nonowner_counterexample :
    messages_destroy sampleNoLikesDB (some bobU) true 10 =
      .ok ⟨⟨[aliceU, bobU], [], [], []⟩, [], .redirect "/users/2"⟩ ∧
    msgA ∉ (⟨[aliceU, bobU], [], [], []⟩ : DB).messages ∧
    bobU.id ≠ msgA.user_id :=
  ⟨by decide, by decide, by decide⟩

/-- C9 amended: a logged-in, CSRF-valid delete request for an existing,
like-free message removes the message for EVERY logged-in user, owner or not
— the handler never compares the requesting user against the message owner. -/
theorem messages_destroy_ignores_ownership (db : DB) (u : UserRec)
    (mid : Nat) (msg : MessageRec)
    (hnolikes : (db.likes.filter (fun l => l.message_id == mid)).isEmpty = true)
    (hfind : db.messages.find? (fun m => m.id == mid) = some msg) :
    messages_destroy db (some u) true mid =
      .ok ⟨{ db with messages := db.messages.filter fun m => !(m.id == mid) },
           [], .redirect ("/users/" ++ toString u.id)⟩ := by
  unfold messages_destroy
  rw [hnolikes, hfind]
  rfl

/-- Witness for the amended C9: non-owner user 2 deleting like-free
message 10 removes it. -/
theorem messages_destroy_ignores_ownership_witness :
    messages_destroy sampleNoLikesDB (some bobU) true 10 =
      .ok ⟨{ sampleNoLikesDB with
             messages := sampleNoLikesDB.messages.filter fun m => !(m.id == 10) },
           [], .redirect ("/users/" ++ toString bobU.id)⟩ :=
  messages_destroy_ignores_ownership sampleNoLikesDB bobU 10 msgA
    (by decide) (by decide)

/-- C3, evaluated at the failing input: message 10 has a like edge, its owner
(user 1) is logged in with a valid CSRF token, yet the delete request raises
`AttributeError` — the handler calls `.delete()` on the Python list returned
by `.all()` — so neither the like edges nor the message are removed, where
the handler meant (per its own comment and the spec) to delete the like
edges first and then the message. -/
theorem messages_destroy_with_likes_raises :
    messages_destroy sampleDB (some aliceU) true 10 =
      .error (.attributeError "list object has no attribute delete") ∧
    (sampleDB.likes.filter (fun l => l.message_id == 10)).isEmpty = false ∧
    msgA.user_id = aliceU.id :=
  ⟨by decide, by decide, by decide⟩

/-- C8: for every state-mutating or data-revealing route, a request whose
session resolves to no current user (via the `add_user_to_g` hook) yields the
`Access unauthorized.` flash and a redirect to the site root, over the
untouched store: no handler logic past the guard runs and no mutation of the
data model is applied. -/
theorem unauthorized_gate (db : DB) (sess : Option Nat) (csrf_valid : Bool)
    (referrer : String) (r : Route)
    (hnone : add_user_to_g db sess = none) :
    handle db (add_user_to_g db sess) csrf_valid referrer r =
      .ok (unauthorizedResult db) := by
  rw [hnone]
  cases r <;> rfl

/-- Witness for C8: a session naming the absent user id 99 resolves to no
current user, and a delete-user request then bounces unauthorized with the
sample store intact. -/
theorem unauthorized_gate_witness :
    handle sampleDB (add_user_to_g sampleDB (some 99)) true "/r" .deleteUserR =
      .ok (unauthorizedResult sampleDB) :=
  unauthorized_gate sampleDB (some 99) true "/r" .deleteUserR (by decide)

/-- C10: a successful profile update (the submitted password re-authenticates
the current user) rewrites the store by `profileUpdate` only, and row-by-row:
every row keeps its password hash, its location and its id; every row other
than the authenticated user's is byte-for-byte unchanged; and the
authenticated row takes exactly the five form fields username, email,
image_url, header_image_url and bio. -/
theorem profile_update_frame (db : DB) (u au : UserRec) (f : EditProfileForm)
    (hauth : authenticate db u.username f.password = some au) :
    profile db (some u) true f =
      .ok ⟨{ db with users := db.users.map (profileUpdate f au.id) },
           [], .redirect ("/users/" ++ toString u.id)⟩ ∧
    List.Forall₂ (fun old new : UserRec =>
        new.password = old.password ∧ new.location = old.location ∧
        new.id = old.id ∧
        (old.id ≠ au.id → new = old) ∧
        (old.id = au.id → new.username = f.username ∧ new.email = f.email ∧
          new.image_url = f.image_url ∧
          new.header_image_url = f.header_image_url ∧ new.bio = f.bio))
      db.users (db.users.map (profileUpdate f au.id)) := by
  constructor
  · simp [profile, hauth]
  · rw [List.forall₂_map_right_iff, List.forall₂_same]
    intro x _
    unfold profileUpdate
    by_cases h : x.id = au.id
    · simp [h]
    · have hb : (x.id == au.id) = false := by simpa using h
      simp [hb, h]

/-- Edit-profile form data used by the C10 witness, re-authenticating with
the stored password of user 1. -/
def editFormW : EditProfileForm := ⟨"alice2", "a2@x.com", "i2", "h2", "b2", "pw1"⟩

/-- Witness for C10: user 1 updating their profile in the one-user store. -/
theorem profile_update_frame_witness :
    profile selfFollowDB (some aliceU) true editFormW =
      .ok ⟨{ selfFollowDB with
             users := selfFollowDB.users.map (profileUpdate editFormW aliceU.id) },
           [], .redirect ("/users/" ++ toString aliceU.id)⟩ ∧
    List.Forall₂ (fun old new : UserRec =>
        new.password = old.password ∧ new.location = old.location ∧
        new.id = old.id ∧
        (old.id ≠ aliceU.id → new = old) ∧
        (old.id = aliceU.id → new.username = editFormW.username ∧
          new.email = editFormW.email ∧ new.image_url = editFormW.image_url ∧
          new.header_image_url = editFormW.header_image_url ∧
          new.bio = editFormW.bio))
      selfFollowDB.users (selfFollowDB.users.map (profileUpdate editFormW aliceU.id)) :=
  profile_update_frame selfFollowDB aliceU aliceU editFormW (by decide)

/-- C1: the homepage feed of a logged-in user `u` consists exactly of the
messages whose owner id is among the ids `u` follows together with `u.id`,
ordered by timestamp descending and capped at 100 rows, for every store:
(1) every returned message is owned by the followed-or-self set,
(2) the result is sorted by creation timestamp descending,
(3) the result never exceeds 100 rows, and its length is exactly the number
of matching messages capped at 100, and
(4) whenever at most 100 messages match, every matching message of the store
is returned. -/
theorem homepage_feed_spec (db : DB) (u : UserRec) :
    (∀ m ∈ homepage_messages db u,
        (users_to_display db u).contains m.user_id = true) ∧
    List.Sorted tsDesc (homepage_messages db u) ∧
    (homepage_messages db u).length =
      min 100 (db.messages.filter
        (fun m => (users_to_display db u).contains m.user_id)).length ∧
    ((db.messages.filter
        (fun m => (users_to_display db u).contains m.user_id)).length ≤ 100 →
      ∀ m ∈ db.messages, (users_to_display db u).contains m.user_id = true →
        m ∈ homepage_messages db u) := by
  have hperm := List.perm_insertionSort tsDesc
    (db.messages.filter (fun m => (users_to_display db u).contains m.user_id))
  refine ⟨?_, ?_, ?_, ?_⟩
  · intro m hm
    have h1 := List.Sublist.mem hm (List.take_sublist _ _)
    have h2 := hperm.mem_iff.mp h1
    simpa using (List.mem_filter.mp h2).2
  · exact List.Pairwise.sublist (List.take_sublist _ _)
      (List.sorted_insertionSort tsDesc _)
  · rw [homepage_messages, List.length_take, hperm.length_eq]
  · intro hlen m hm hpred
    have hmf : m ∈ db.messages.filter
        (fun m2 => (users_to_display db u).contains m2.user_id) :=
      List.mem_filter.mpr ⟨hm, by simpa using hpred⟩
    have hms := hperm.mem_iff.mpr hmf
    rw [homepage_messages,
        List.take_of_length_le (by rw [hperm.length_eq]; exact hlen)]
    exact hms

/-- Witness for C1: in the sample store, user 1 follows nobody, only one
message (their own) matches, and it is returned by the feed. -/
theorem homepage_feed_spec_witness :
    msgA ∈ homepage_messages sampleDB aliceU :=
  (homepage_feed_spec sampleDB aliceU).2.2.2 (by decide) msgA
    (by decide) (by decide)

end Warbler
